import Mathlib

/-!
Shallow embedding of the resource-lifecycle layer of `sam-flutter`
(`server/service_sam2.py` and `server/app.py`).

Conventions of the embedding:
* wall-clock timestamps (`time.time()`) are naturals supplied as explicit
  `now` arguments;
* the Python `dict` keyed by session id is a `List _Session` in insertion
  order; key update keeps the position of the entry, key removal filters it
  out — matching CPython dict semantics;
* external collaborators (the filesystem check on checkpoints, the device
  probe, the image decoder, the SAM2 predictor) are passed in as function
  or value parameters;
* Python exceptions become explicit error values: each `raise` site of the
  source maps to one constructor below, and an exception that escapes a
  FastAPI handler is `HttpResult.unhandled` (FastAPI turns it into a 500
  response).
-/

/-- Errors raised by `ModelManager.load` in `service_sam2.py`:
`ValueError` for an unknown catalog key (line 139), `FileNotFoundError`
for a missing/empty checkpoint file (line 142). -/
inductive EngineErr where
  | unknownModel
  | weightsMissing
deriving DecidableEq

/-- Errors raised by `SessionManager` methods: `RuntimeError("too many
sessions")`, `KeyError`, the PIL decode exception, and the `ValueError`
variants of `predict`. -/
inductive SvcError where
  | registryFull
  | notFound
  | decodeError
  | badPrompt
  | predictError
  | noMask
  | unknownModel
  | weightsMissing
deriving DecidableEq

/-- Translation of an engine error escaping into registry code paths
that call the model manager (`ModelManager.predictor` inside
`SessionManager.create`). -/
def EngineErr.toSvc : EngineErr → SvcError
  | .unknownModel => .unknownModel
  | .weightsMissing => .weightsMissing

/-- Result of a FastAPI handler: a successful payload, a raised
`HTTPException status detail`, or an exception that no `except` clause of
the handler catches (surfaced by FastAPI as a 500 response). -/
inductive HttpResult (α : Type) where
  | ok : α → HttpResult α
  | httpError : Nat → String → HttpResult α
  | unhandled : HttpResult α
deriving DecidableEq

/-- The `_Session` dataclass of `service_sam2.py` (lines 167-174), minus
the opaque predictor object and the per-session lock, which the
lifecycle logic never inspects. -/
structure _Session where
  session_id : String
  last_used : Nat
  width : Nat := 0
  height : Nat := 0
deriving DecidableEq

/-- State of `SessionManager` (lines 177-183): the session dict and the
two environment-derived bounds. -/
structure SessionManagerState where
  sessions : List _Session
  ttl_s : Nat
  max_sessions : Nat
deriving DecidableEq

namespace SessionManager

/-- Ids of the sessions evicted by the capacity phase of `_gc`
(lines 192-195): the `len - max` oldest entries of the post-TTL list,
ordered by `last_used` (`sorted` is stable, as is `List.mergeSort`). -/
def evictIds (kept : List _Session) (maxS : Nat) : List String :=
  ((kept.mergeSort (fun a b => decide (a.last_used ≤ b.last_used))).take
    (kept.length - maxS)).map (fun s => s.session_id)

/-- Body of `SessionManager._gc` (lines 185-195) acting on the session
list: drop every entry with `now - last_used > ttl`, then, if the
remainder still exceeds `maxS`, pop the oldest entries by id. -/
def gcSessions (now ttl maxS : Nat) (ss : List _Session) : List _Session :=
  let kept := ss.filter (fun s => !decide (now - s.last_used > ttl))
  if kept.length > maxS then
    kept.filter (fun s => !(evictIds kept maxS).contains s.session_id)
  else kept

/-- `SessionManager._gc` (lines 185-195). -/
def _gc (now : Nat) (st : SessionManagerState) : SessionManagerState :=
  { st with sessions := gcSessions now st.ttl_s st.max_sessions st.sessions }

/-- `SessionManager.clear` (lines 197-199). -/
def clear (st : SessionManagerState) : SessionManagerState :=
  { st with sessions := [] }

/-- `SessionManager.count` (lines 201-204): GC, then the size. -/
def count (now : Nat) (st : SessionManagerState) : Nat × SessionManagerState :=
  ((_gc now st).sessions.length, _gc now st)

/-- Dict assignment `self._sessions[sid] = s`: update in place when the
key exists, else append. -/
def dictInsert (ss : List _Session) (s : _Session) : List _Session :=
  if ss.any (fun t => decide (t.session_id = s.session_id)) then
    ss.map (fun t => if decide (t.session_id = s.session_id) then s else t)
  else ss ++ [s]

/-- `SessionManager.create` (lines 206-220): GC under the structural
lock, refuse with `RuntimeError` when still at capacity, else obtain a
predictor from the model manager (outcome passed in as `pr`, since model
construction is external) and insert the fresh session with
`last_used = now`. The fresh uuid is the `sid` argument. -/
def create (sid : String) (now : Nat) (pr : Except EngineErr Unit)
    (st : SessionManagerState) : Except SvcError String × SessionManagerState :=
  let st1 := _gc now st
  if st1.sessions.length ≥ st1.max_sessions then
    (.error .registryFull, st1)
  else
    match pr with
    | .error e => (.error e.toSvc, st1)
    | .ok _ =>
      (.ok sid, { st1 with sessions := dictInsert st1.sessions { session_id := sid, last_used := now } })

/-- `SessionManager.delete` (lines 222-224): a plain `dict.pop` under the
structural lock — `KeyError` when absent, and no garbage collection. -/
def delete (sid : String) (st : SessionManagerState) :
    Except SvcError Unit × SessionManagerState :=
  if st.sessions.any (fun s => decide (s.session_id = sid)) then
    (.ok (), { st with sessions := st.sessions.filter (fun s => !decide (s.session_id = sid)) })
  else (.error .notFound, st)

/-- `SessionManager._get` (lines 226-233): GC, dict lookup, `KeyError`
when absent, else refresh `last_used` on the stored entry and return
it. -/
def _get (sid : String) (now : Nat) (st : SessionManagerState) :
    Except SvcError _Session × SessionManagerState :=
  let st1 := _gc now st
  match st1.sessions.find? (fun s => decide (s.session_id = sid)) with
  | none => (.error .notFound, st1)
  | some s =>
    (.ok { s with last_used := now },
     { st1 with sessions := st1.sessions.map (fun t => if decide (t.session_id = sid) then { t with last_used := now } else t) })

end SessionManager

/-- Operations of the session registry, for reasoning about arbitrary
interleavings. `create` carries the generated uuid, the call time, and
the outcome of the external predictor construction; `count`, `lookup`
and `gcAt` carry the call time. -/
inductive RegOp where
  | create (sid : String) (now : Nat) (prOk : Bool)
  | delete (sid : String)
  | count (now : Nat)
  | lookup (sid : String) (now : Nat)
  | gcAt (now : Nat)

/-- State reached after one registry operation (return values
discarded). -/
def applyOp (st : SessionManagerState) : RegOp → SessionManagerState
  | .create sid now prOk =>
    (SessionManager.create sid now (if prOk then .ok () else .error .weightsMissing) st).2
  | .delete sid => (SessionManager.delete sid st).2
  | .count now => (SessionManager.count now st).2
  | .lookup sid now => (SessionManager._get sid now st).2
  | .gcAt now => SessionManager._gc now st

/-- State reached after a sequence of registry operations. -/
def runOps (st : SessionManagerState) (ops : List RegOp) : SessionManagerState :=
  ops.foldl applyOp st

/-- The freshly constructed registry (`SessionManager.__init__`,
lines 178-183): empty dict, environment-derived bounds. -/
def initRegistry (ttl maxS : Nat) : SessionManagerState :=
  { sessions := [], ttl_s := ttl, max_sessions := maxS }

/-- State of `ModelManager` (`service_sam2.py` lines 100-105) plus a
counter of `build_sam2` invocations, the "call counter on the
construction path" the spec uses to observe reconstruction. The opaque
loaded model is represented by the value of the counter at build time. -/
structure ModelManagerState where
  model_key : Option String
  device : Option String
  model : Option Nat
  buildCount : Nat
deriving DecidableEq

/-- Keys of `_catalog()` (`service_sam2.py` lines 40-60). -/
def catalogKeys : List String :=
  ["sam2.1_hiera_tiny", "sam2.1_hiera_small", "sam2.1_hiera_base_plus", "sam2.1_hiera_large"]

/-- `DEFAULT_MODEL_KEY` (`service_sam2.py` line 18). -/
def DEFAULT_MODEL_KEY : String := "sam2.1_hiera_tiny"

namespace ModelManager

/-- `ModelManager.load` (`service_sam2.py` lines 136-156). `ck key`
reports whether the checkpoint file for `key` exists and is non-empty;
`dev` is the result of the `_best_device()` probe. The already-loaded
check and the model construction happen in one critical section under
`self._lock` in the source (lines 147-156), so `load` is a single atomic
transition here. -/
def load (ck : String → Bool) (dev : String) (key : String)
    (st : ModelManagerState) : Except EngineErr Unit × ModelManagerState :=
  if catalogKeys.contains key = false then (.error .unknownModel, st)
  else if ck key = false then (.error .weightsMissing, st)
  else if st.model_key = some key ∧ st.model.isSome then (.ok (), st)
  else (.ok (),
    { model_key := some key, device := some dev,
      model := some st.buildCount, buildCount := st.buildCount + 1 })

end ModelManager

/-- The `/model/select` handler (`app.py` lines 82-93). `payloadKey` is
`payload.get("model_key")` when it is a string, `none` otherwise. Only
`FileNotFoundError` is caught and mapped to 404; the `ValueError` raised
for an unknown key escapes the handler. -/
def select_model (ck : String → Bool) (dev : String) (payloadKey : Option String)
    (mst : ModelManagerState) (sst : SessionManagerState) :
    HttpResult Unit × ModelManagerState × SessionManagerState :=
  match payloadKey with
  | none => (.httpError 400 "model_key is required", mst, sst)
  | some key =>
    if key = "" then (.httpError 400 "model_key is required", mst, sst)
    else
      match ModelManager.load ck dev key mst with
      | (.error .unknownModel, mst1) => (.unhandled, mst1, sst)
      | (.error .weightsMissing, mst1) => (.httpError 404 "checkpoint not found", mst1, sst)
      | (.ok _, mst1) => (.ok (), mst1, SessionManager.clear sst)

namespace SessionManager

/-- `SessionManager.set_image` (`service_sam2.py` lines 235-244).
`decodeImg` stands for `Image.open(...).convert("RGB")` and yields the
decoded dimensions, or `none` when PIL cannot identify the bytes (an
exception at line 238, before any session field is written). -/
def set_image (sid : String) (now : Nat) (data : List Nat)
    (decodeImg : List Nat → Option (Nat × Nat)) (st : SessionManagerState) :
    Except SvcError (String × Nat × Nat) × SessionManagerState :=
  match _get sid now st with
  | (.error e, st1) => (.error e, st1)
  | (.ok _, st1) =>
    match decodeImg data with
    | none => (.error .decodeError, st1)
    | some (w, h) =>
      (.ok (sid, w, h),
       { st1 with sessions := st1.sessions.map (fun t => if decide (t.session_id = sid) then { t with width := w, height := h } else t) })

end SessionManager

/-- The `POST /sessions/{id}/image` handler (`app.py` lines 114-124):
400 on an empty body, 404 on `KeyError`; the PIL decode exception is not
caught by any `except` clause, so it escapes as a 500. -/
def handle_set_image (sid : String) (now : Nat) (data : List Nat)
    (decodeImg : List Nat → Option (Nat × Nat)) (st : SessionManagerState) :
    HttpResult (String × Nat × Nat) × SessionManagerState :=
  if data = [] then (.httpError 400 "empty upload", st)
  else
    match SessionManager.set_image sid now data decodeImg st with
    | (.error .notFound, st1) => (.httpError 404 "session not found", st1)
    | (.error _, st1) => (.unhandled, st1)
    | (.ok r, st1) => (.ok r, st1)

/-- `PredictRequest` (`service_sam2.py` lines 70-76). Pixel coordinates
are opaque to the lifecycle logic, embedded as integer pairs. -/
structure PredictRequest where
  points : Option (List (Int × Int)) := none
  labels : Option (List Int) := none
  box : Option (List Int) := none
  multimask : Bool := false
deriving DecidableEq

/-- Outcome of `s.predictor.predict(...)` (external collaborator):
either a `RuntimeError` usage fault (most commonly predict before
`set_image`), or a candidate list of masks (each a raster flattened to a
pixel list) with their scores. `masks = none` models a `None` return. -/
inductive PredictorOutcome where
  | fault
  | out (masks : Option (List (List Int))) (scores : List Int)

/-- `PredictResponse` fields computed by `SessionManager.predict`
(lines 292-299), minus the PNG/base64 transport encoding of the mask,
which keeps the selected raster itself here. -/
structure PredictResult where
  score : Int
  mask_area : Nat
  mask : List Int
deriving DecidableEq

/-- `int(np.argmax(scores))` (line 279): numpy returns the index of the
first occurrence of the maximum value. -/
def npArgmax : List Int → Nat
  | [] => 0
  | [_] => 0
  | x :: y :: rest =>
    let j := npArgmax (y :: rest)
    if (y :: rest).getD j 0 > x then j + 1 else 0

/-- Lines 262-299 of `service_sam2.py`: run the predictor, map
`RuntimeError` to `ValueError` (line 272), fail with `ValueError` when
no mask comes back (lines 275-276), else select the best-scoring mask,
count its strictly positive pixels, and assemble the response. -/
def runPredictor : PredictorOutcome → Except SvcError PredictResult
  | .fault => .error .predictError
  | .out masks scores =>
    match masks with
    | none => .error .noMask
    | some ms =>
      if ms.length = 0 then .error .noMask
      else
        let best := npArgmax scores
        let bestMask := ms.getD best []
        .ok { score := scores.getD best 0,
              mask_area := bestMask.countP (fun p => decide (p > 0)),
              mask := bestMask }

/-- Validation and dispatch of `SessionManager.predict`
(lines 246-259): `ValueError` unless at least one of points/box is
present; with points, a labels list of the same length is mandatory. -/
def predictCore (req : PredictRequest) (run : PredictorOutcome) :
    Except SvcError PredictResult :=
  if req.points = none ∧ req.box = none then .error .badPrompt
  else
    match req.points with
    | some ps =>
      match req.labels with
      | none => .error .badPrompt
      | some ls =>
        if ls.length ≠ ps.length then .error .badPrompt
        else runPredictor run
    | none => runPredictor run

namespace SessionManager

/-- `SessionManager.predict` (lines 246-299): session lookup first
(`_get`, propagating `KeyError`), then validation and the predictor
call, whose outcome is the external parameter `run`. -/
def predict (sid : String) (now : Nat) (req : PredictRequest)
    (run : PredictorOutcome) (st : SessionManagerState) :
    Except SvcError PredictResult × SessionManagerState :=
  match _get sid now st with
  | (.error e, st1) => (.error e, st1)
  | (.ok _, st1) => (predictCore req run, st1)

end SessionManager

/-- The `POST /sessions` handler (`app.py` lines 96-111). When the
payload carries a non-empty string `model_key`, the handler loads that
model (catching only `FileNotFoundError` → 404) and clears every
session; then it creates the new session. After a successful explicit
load the nested `predictor()` call inside `create` is the idempotent
no-op, so its outcome is `.ok ()`; without a `model_key` that outcome is
the external parameter `pr`. Errors from `create` (capacity, engine) are
not caught and escape as a 500. -/
def create_session (ck : String → Bool) (dev : String) (pr : Except EngineErr Unit)
    (payloadKey : Option String) (sid : String) (now : Nat)
    (mst : ModelManagerState) (sst : SessionManagerState) :
    HttpResult String × ModelManagerState × SessionManagerState :=
  let mk : Option String :=
    match payloadKey with
    | some k => if k = "" then none else some k
    | none => none
  match mk with
  | some key =>
    match ModelManager.load ck dev key mst with
    | (.error .unknownModel, mst1) => (.unhandled, mst1, sst)
    | (.error .weightsMissing, mst1) => (.httpError 404 "checkpoint not found", mst1, sst)
    | (.ok _, mst1) =>
      match SessionManager.create sid now (.ok ()) (SessionManager.clear sst) with
      | (.error _, sst2) => (.unhandled, mst1, sst2)
      | (.ok s, sst2) => (.ok s, mst1, sst2)
  | none =>
    match SessionManager.create sid now pr sst with
    | (.error _, sst2) => (.unhandled, mst, sst2)
    | (.ok s, sst2) => (.ok s, mst, sst2)

/-- The condition under which the spec requires `BadPrompt`: neither
points nor box, or points with a missing or different-length labels
sequence. Stated over the request record for comparison with the code
path. -/
def badPromptSpec (req : PredictRequest) : Prop :=
  (req.points = none ∧ req.box = none) ∨
  (req.points ≠ none ∧ req.labels.map List.length ≠ req.points.map List.length)

instance (req : PredictRequest) : Decidable (badPromptSpec req) := by
  unfold badPromptSpec
  infer_instance

/-- Fixture: every checkpoint file present and non-empty. -/
def ckAll : String → Bool := fun _ => true

/-- Fixture: an engine that has already loaded the default model. -/
def mstLoaded : ModelManagerState :=
  { model_key := some DEFAULT_MODEL_KEY, device := some "cpu", model := some 0, buildCount := 1 }

/-- Fixture: a registry holding one live session `"S"`. -/
def sstOne : SessionManagerState :=
  { sessions := [{ session_id := "S", last_used := 5 }], ttl_s := 1800, max_sessions := 8 }

/-- Fixture: a registry whose only session `"A"` (last used at 0,
TTL 10) is expired at any `now > 10`. -/
def sstExpired : SessionManagerState :=
  { sessions := [{ session_id := "A", last_used := 0 }], ttl_s := 10, max_sessions := 8 }

/-- The scenario of spec section 8: `maxSessions = 2`,
`ttlSeconds = 1000`, three `create` calls A, B, C in order. -/
def c3s1 : Except SvcError String × SessionManagerState :=
  SessionManager.create "A" 0 (.ok ()) (initRegistry 1000 2)

/-- Second create of the scenario. -/
def c3s2 : Except SvcError String × SessionManagerState :=
  SessionManager.create "B" 1 (.ok ()) c3s1.2

/-- Third create of the scenario. -/
def c3s3 : Except SvcError String × SessionManagerState :=
  SessionManager.create "C" 2 (.ok ()) c3s2.2

/-- Fixture: a valid prompt, one foreground point with one label. -/
def reqC8 : PredictRequest := { points := some [(1, 1)], labels := some [1] }

/-- Fixture: a predictor returning two candidate masks with scores 1
and 5. -/
def runC8 : PredictorOutcome := .out (some [[0, 2], [1, 1]]) [1, 5]

namespace SessionManager

theorem trimmed_length_le (kept : List _Session) (maxS : Nat) (h : maxS < kept.length) :
    (kept.filter (fun s => !(evictIds kept maxS).contains s.session_id)).length ≤ maxS := by
  set p : _Session → Bool := fun s => !(evictIds kept maxS).contains s.session_id with hp
  set srt := kept.mergeSort (fun a b => decide (a.last_used ≤ b.last_used)) with hsrt
  have hperm : srt.Perm kept := List.mergeSort_perm kept _
  have hlen : srt.length = kept.length := hperm.length_eq
  set k := kept.length - maxS with hk
  have hcount : kept.countP p = (kept.filter p).length := List.countP_eq_length_filter p kept
  have hsplit : srt.take k ++ srt.drop k = srt := List.take_append_drop k srt
  have hc1 : kept.countP p = (srt.take k).countP p + (srt.drop k).countP p := by
    have h2 : srt.countP p = kept.countP p := hperm.countP_eq p
    conv_lhs => rw [← h2, ← hsplit]
    rw [List.countP_append]
  have htake : (srt.take k).countP p = 0 := by
    apply List.countP_eq_zero.mpr
    intro a ha
    have hid : a.session_id ∈ evictIds kept maxS := by
      rw [evictIds, ← hsrt, ← hk]
      exact List.mem_map_of_mem _ ha
    simpa [hp] using hid
  have hdrop : (srt.drop k).countP p ≤ srt.length - k := by
    calc (srt.drop k).countP p ≤ (srt.drop k).length := List.countP_le_length p
    _ = srt.length - k := srt.length_drop k
  have : (kept.filter p).length ≤ srt.length - k := by
    rw [← hcount, hc1, htake]
    omega
  rw [hlen] at this
  omega

theorem gcSessions_length_le (now ttl maxS : Nat) (ss : List _Session) :
    (gcSessions now ttl maxS ss).length ≤ maxS := by
  rw [gcSessions]
  set kept := ss.filter (fun s => !decide (now - s.last_used > ttl)) with hkept
  by_cases h : kept.length > maxS
  · simpa [h] using trimmed_length_le kept maxS h
  · simpa [h] using Nat.le_of_not_lt h

theorem gc_length_le (now : Nat) (st : SessionManagerState) :
    (_gc now st).sessions.length ≤ st.max_sessions :=
  gcSessions_length_le now st.ttl_s st.max_sessions st.sessions

theorem gc_ttl_eq (now : Nat) (st : SessionManagerState) :
    (_gc now st).ttl_s = st.ttl_s := rfl

theorem gc_max_eq (now : Nat) (st : SessionManagerState) :
    (_gc now st).max_sessions = st.max_sessions := rfl

theorem dictInsert_length_le (ss : List _Session) (s : _Session) :
    (dictInsert ss s).length ≤ ss.length + 1 := by
  rw [dictInsert]
  by_cases h : ss.any (fun t => decide (t.session_id = s.session_id))
  · simp [h]
  · simp [h]

end SessionManager

/-- Invariant propagated through `runOps`: the session count never
exceeds `max_sessions`, and the configured bounds are untouched. -/
theorem applyOp_preserves (st : SessionManagerState) (op : RegOp)
    (h : st.sessions.length ≤ st.max_sessions) :
    (applyOp st op).sessions.length ≤ (applyOp st op).max_sessions ∧
      (applyOp st op).max_sessions = st.max_sessions ∧
      (applyOp st op).ttl_s = st.ttl_s := by
  cases op with
  | create sid now prOk =>
    by_cases hfull : (SessionManager._gc now st).sessions.length ≥ (SessionManager._gc now st).max_sessions
    · have hst : applyOp st (.create sid now prOk) = SessionManager._gc now st := by
        simp [applyOp, SessionManager.create, hfull]
      rw [hst]
      exact ⟨SessionManager.gc_length_le now st, rfl, rfl⟩
    · by_cases hpr : prOk
      · have hst : applyOp st (.create sid now prOk) =
            { SessionManager._gc now st with
              sessions := SessionManager.dictInsert (SessionManager._gc now st).sessions
                { session_id := sid, last_used := now } } := by
          simp [applyOp, SessionManager.create, hfull, hpr]
        rw [hst]
        refine ⟨?_, rfl, rfl⟩
        show (SessionManager.dictInsert (SessionManager._gc now st).sessions
            { session_id := sid, last_used := now }).length ≤
          (SessionManager._gc now st).max_sessions
        have h1 := SessionManager.dictInsert_length_le (SessionManager._gc now st).sessions
          { session_id := sid, last_used := now }
        have h2 : (SessionManager._gc now st).sessions.length <
            (SessionManager._gc now st).max_sessions := Nat.lt_of_not_le hfull
        omega
      · have hst : applyOp st (.create sid now prOk) = SessionManager._gc now st := by
          simp [applyOp, SessionManager.create, hfull, hpr]
        rw [hst]
        exact ⟨SessionManager.gc_length_le now st, rfl, rfl⟩
  | delete sid =>
    by_cases hmem : st.sessions.any (fun s => decide (s.session_id = sid))
    · have hst : applyOp st (.delete sid) =
          { st with sessions := st.sessions.filter (fun s => !decide (s.session_id = sid)) } := by
        simp [applyOp, SessionManager.delete, hmem]
      rw [hst]
      refine ⟨?_, rfl, rfl⟩
      calc (st.sessions.filter (fun s => !decide (s.session_id = sid))).length
          ≤ st.sessions.length := st.sessions.length_filter_le _
        _ ≤ st.max_sessions := h
    · have hst : applyOp st (.delete sid) = st := by
        simp [applyOp, SessionManager.delete, hmem]
      rw [hst]
      exact ⟨h, rfl, rfl⟩
  | count now =>
    exact ⟨SessionManager.gc_length_le now st, rfl, rfl⟩
  | lookup sid now =>
    cases hfind : (SessionManager._gc now st).sessions.find?
        (fun s => decide (s.session_id = sid)) with
    | none =>
      have hst : applyOp st (.lookup sid now) = SessionManager._gc now st := by
        simp [applyOp, SessionManager._get, hfind]
      rw [hst]
      exact ⟨SessionManager.gc_length_le now st, rfl, rfl⟩
    | some s =>
      have hst : applyOp st (.lookup sid now) =
          { SessionManager._gc now st with
            sessions := (SessionManager._gc now st).sessions.map
              (fun t => if decide (t.session_id = sid) then { t with last_used := now } else t) } := by
        simp [applyOp, SessionManager._get, hfind]
      rw [hst]
      refine ⟨?_, rfl, rfl⟩
      have hgc := SessionManager.gc_length_le now st
      simpa using hgc
  | gcAt now =>
    exact ⟨SessionManager.gc_length_le now st, rfl, rfl⟩


theorem runOps_length_le (ops : List RegOp) (st : SessionManagerState)
    (h : st.sessions.length ≤ st.max_sessions) :
    (runOps st ops).sessions.length ≤ (runOps st ops).max_sessions := by
  induction ops generalizing st with
  | nil => exact h
  | cons op rest ih =>
    have step := applyOp_preserves st op h
    have : (applyOp st op).sessions.length ≤ (applyOp st op).max_sessions := step.1
    exact ih (applyOp st op) this

theorem getD_eq_get {α : Type} (l : List α) (n : Nat) (d : α) (h : n < l.length) :
    l.getD n d = l.get ⟨n, h⟩ := by
  simp [List.getD_eq_getElem?_getD, List.getElem?_eq_getElem h]

theorem npArgmax_spec (l : List Int) (h : l ≠ []) :
    npArgmax l < l.length ∧
      (∀ (i : Nat) (hi : i < l.length), l.get ⟨i, hi⟩ ≤ l.getD (npArgmax l) 0) ∧
      (∀ (i : Nat) (hi : i < l.length), i < npArgmax l → l.get ⟨i, hi⟩ < l.getD (npArgmax l) 0) := by
  induction l with
  | nil => exact absurd rfl h
  | cons x xs ih =>
    cases xs with
    | nil =>
      refine ⟨by simp [npArgmax], ?_, ?_⟩
      · intro i hi
        cases i with
        | zero => simp [npArgmax]
        | succ i => simp at hi
      · intro i hi hlt
        simp [npArgmax] at hlt
    | cons y rest =>
      obtain ⟨hj, hle, hlt⟩ := ih (by simp)
      have hdef : npArgmax (x :: y :: rest) =
          if (y :: rest).getD (npArgmax (y :: rest)) 0 > x then npArgmax (y :: rest) + 1 else 0 := rfl
      by_cases hc : (y :: rest).getD (npArgmax (y :: rest)) 0 > x
      · rw [hdef, if_pos hc]
        have hD : (x :: y :: rest).getD (npArgmax (y :: rest) + 1) 0 =
            (y :: rest).getD (npArgmax (y :: rest)) 0 := List.getD_cons_succ
        refine ⟨by simpa using Nat.succ_lt_succ hj, ?_, ?_⟩
        · intro i hi
          rw [hD]
          cases i with
          | zero => simpa using le_of_lt hc
          | succ i =>
            have hi2 : i < (y :: rest).length := by
              simp only [List.length_cons] at hi ⊢; omega
            simpa using hle i hi2
        · intro i hi hilt
          rw [hD]
          cases i with
          | zero => simpa using hc
          | succ i =>
            have hi2 : i < (y :: rest).length := by
              simp only [List.length_cons] at hi ⊢; omega
            have : i < npArgmax (y :: rest) := Nat.lt_of_succ_lt_succ hilt
            simpa using hlt i hi2 this
      · rw [hdef, if_neg hc]
        have hmax : (y :: rest).getD (npArgmax (y :: rest)) 0 ≤ x := le_of_not_lt hc
        refine ⟨by simp, ?_, ?_⟩
        · intro i hi
          rw [List.getD_cons_zero]
          cases i with
          | zero => simp
          | succ i =>
            have hi2 : i < (y :: rest).length := by
              simp only [List.length_cons] at hi ⊢; omega
            have h1 : (y :: rest).get ⟨i, hi2⟩ ≤ (y :: rest).getD (npArgmax (y :: rest)) 0 :=
              hle i hi2
            have h2 : (x :: y :: rest).get ⟨i + 1, hi⟩ = (y :: rest).get ⟨i, hi2⟩ := by
              simp
            rw [h2]
            exact le_trans h1 hmax
        · intro i hi hilt
          exact absurd hilt (Nat.not_lt_zero i)

theorem runOps_invariant (ops : List RegOp) (st : SessionManagerState)
    (h : st.sessions.length ≤ st.max_sessions) :
    (runOps st ops).sessions.length ≤ st.max_sessions := by
  induction ops generalizing st with
  | nil => exact h
  | cons op rest ih =>
    have step := applyOp_preserves st op h
    have h3 := ih (applyOp st op) step.1
    rw [step.2.1] at h3
    exact h3

theorem mem_gcSessions_not_expired (now ttl maxS : Nat) (ss : List _Session)
    (s : _Session) (h : s ∈ SessionManager.gcSessions now ttl maxS ss) :
    now - s.last_used ≤ ttl := by
  rw [SessionManager.gcSessions] at h
  set kept := ss.filter (fun s => !decide (now - s.last_used > ttl)) with hkept
  have hmem : s ∈ kept := by
    by_cases hc : kept.length > maxS
    · rw [if_pos hc] at h
      exact (List.mem_filter.mp h).1
    · rwa [if_neg hc] at h
  have hpred := (List.mem_filter.mp hmem).2
  simp at hpred
  omega

theorem mem_gcSessions_mem (now ttl maxS : Nat) (ss : List _Session)
    (s : _Session) (h : s ∈ SessionManager.gcSessions now ttl maxS ss) :
    s ∈ ss := by
  rw [SessionManager.gcSessions] at h
  set kept := ss.filter (fun s => !decide (now - s.last_used > ttl)) with hkept
  have hmem : s ∈ kept := by
    by_cases hc : kept.length > maxS
    · rw [if_pos hc] at h
      exact (List.mem_filter.mp h).1
    · rwa [if_neg hc] at h
  exact (List.mem_filter.mp hmem).1

theorem runPredictor_ne_badPrompt (run : PredictorOutcome) :
    runPredictor run ≠ .error .badPrompt := by
  cases run with
  | fault => simp [runPredictor]
  | out masks scores =>
    cases masks with
    | none => simp [runPredictor]
    | some ms =>
      by_cases h : ms.length = 0 <;> simp [runPredictor, h]

theorem predictCore_valid (req : PredictRequest) (run : PredictorOutcome)
    (hv : ¬ badPromptSpec req) : predictCore req run = runPredictor run := by
  unfold predictCore
  unfold badPromptSpec at hv
  push_neg at hv
  cases hp : req.points with
  | none =>
    have hbox : req.box ≠ none := hv.1 hp
    rw [if_neg (fun hcon => hbox hcon.2)]
  | some ps =>
    have hmap : req.labels.map List.length = req.points.map List.length :=
      hv.2 (by rw [hp]; exact Option.some_ne_none ps)
    rw [hp] at hmap
    cases hl : req.labels with
    | none =>
      rw [hl] at hmap
      simp at hmap
    | some ls =>
      rw [hl] at hmap
      simp at hmap
      rw [if_neg (fun hcon => Option.some_ne_none ps hcon.1)]
      simp [hmap]

theorem predict_fst (sid : String) (now : Nat) (req : PredictRequest)
    (run : PredictorOutcome) (st : SessionManagerState) (s : _Session)
    (hget : (SessionManager._get sid now st).1 = .ok s) :
    (SessionManager.predict sid now req run st).1 = predictCore req run := by
  unfold SessionManager.predict
  rcases hg : SessionManager._get sid now st with ⟨res, st1⟩
  rw [hg] at hget
  cases res with
  | error e => simp at hget
  | ok t => rfl

theorem set_image_decode_failure (sid : String) (now : Nat) (data : List Nat)
    (decodeImg : List Nat → Option (Nat × Nat)) (st : SessionManagerState) (s : _Session)
    (hget : (SessionManager._get sid now st).1 = .ok s)
    (hdec : decodeImg data = none) :
    SessionManager.set_image sid now data decodeImg st =
      (.error .decodeError, (SessionManager._get sid now st).2) := by
  unfold SessionManager.set_image
  rcases hg : SessionManager._get sid now st with ⟨res, st1⟩
  rw [hg] at hget
  cases res with
  | error e => simp at hget
  | ok t => rw [hdec]

theorem get_post_sessions (sid : String) (now : Nat) (st : SessionManagerState)
    (t : _Session) (ht : t ∈ (SessionManager._get sid now st).2.sessions) :
    ∃ t0 ∈ st.sessions,
      t.session_id = t0.session_id ∧ t.width = t0.width ∧ t.height = t0.height := by
  simp only [SessionManager._get] at ht
  cases hfind : (SessionManager._gc now st).sessions.find?
      (fun s => decide (s.session_id = sid)) with
  | none =>
    rw [hfind] at ht
    exact ⟨t, mem_gcSessions_mem now st.ttl_s st.max_sessions st.sessions t ht, rfl, rfl, rfl⟩
  | some s =>
    rw [hfind] at ht
    rcases List.mem_map.mp ht with ⟨u, hu, hfu⟩
    have hu2 : u ∈ st.sessions := mem_gcSessions_mem now st.ttl_s st.max_sessions st.sessions u hu
    refine ⟨u, hu2, ?_⟩
    by_cases hc : u.session_id = sid
    · rw [← hfu]
      simp [hc]
    · rw [← hfu]
      simp [hc]

/-- C1: for every sequence of registry operations (create, delete,
count, lookup, garbage-collect) starting from the freshly constructed
registry, the session map holds at most `maxSessions` entries when the
operation completes; moreover `_gc` run on any state leaves at most
`maxSessions` entries. -/
theorem claim_registry_bounded (ttl maxS : Nat) (ops : List RegOp) :
    (runOps (initRegistry ttl maxS) ops).sessions.length ≤ maxS ∧
      ∀ (now : Nat) (st : SessionManagerState),
        (SessionManager._gc now st).sessions.length ≤ st.max_sessions := by
  constructor
  · exact runOps_invariant ops (initRegistry ttl maxS) (by simp [initRegistry])
  · intro now st
    exact SessionManager.gc_length_le now st

/-- C5: `create` fails with `RegistryFull` exactly when, after garbage
collection has run, the number of live sessions is at least
`maxSessions`; on that error the resulting state is exactly the
garbage-collected state, with no new session inserted. (`create` is a
total function of its inputs: the caller gets the error immediately and
is never blocked waiting for capacity.) -/
theorem claim_create_registry_full (sid : String) (now : Nat)
    (pr : Except EngineErr Unit) (st : SessionManagerState) :
    ((SessionManager.create sid now pr st).1 = .error .registryFull ↔
      st.max_sessions ≤ (SessionManager._gc now st).sessions.length) ∧
    ((SessionManager.create sid now pr st).1 = .error .registryFull →
      (SessionManager.create sid now pr st).2 = SessionManager._gc now st) := by
  by_cases hfull :
      (SessionManager._gc now st).sessions.length ≥ (SessionManager._gc now st).max_sessions
  · have hc : SessionManager.create sid now pr st =
        (.error .registryFull, SessionManager._gc now st) := by
      simp [SessionManager.create, hfull]
    rw [hc]
    exact ⟨⟨fun _ => hfull, fun _ => rfl⟩, fun _ => rfl⟩
  · have hne : (SessionManager.create sid now pr st).1 ≠ .error .registryFull := by
      simp only [SessionManager.create]
      rw [if_neg hfull]
      cases pr with
      | error e => cases e <;> simp [EngineErr.toSvc]
      | ok u => simp
    exact ⟨⟨fun h => absurd h hne, fun h => absurd h hfull⟩, fun h => absurd h hne⟩

/-- C5 witness: at the concrete scenario state holding sessions A and B
with `maxSessions = 2`, the next create at time 2 fails with
`RegistryFull` and inserts nothing. -/
theorem claim_create_registry_full_witness :
    ((SessionManager.create "C" 2 (.ok ()) c3s2.2).1 = .error .registryFull ↔
      c3s2.2.max_sessions ≤ (SessionManager._gc 2 c3s2.2).sessions.length) ∧
    ((SessionManager.create "C" 2 (.ok ()) c3s2.2).1 = .error .registryFull →
      (SessionManager.create "C" 2 (.ok ()) c3s2.2).2 = SessionManager._gc 2 c3s2.2) :=
  claim_create_registry_full "C" 2 (.ok ()) c3s2.2

/-- C7: `load(key)` is idempotent — when `key` equals the current
configuration and a model is already loaded (and the catalog/checkpoint
checks that the source performs first pass), the call returns
immediately with the state unchanged and the construction counter not
incremented. The already-loaded check and the construction both sit in
the single critical section of `self._lock` (source lines 147-156), so
`load` is one atomic transition of the embedding. -/
theorem claim_load_idempotent (ck : String → Bool) (dev key : String)
    (st : ModelManagerState)
    (hcat : catalogKeys.contains key = true) (hck : ck key = true)
    (hkey : st.model_key = some key) (hm : st.model.isSome = true) :
    ModelManager.load ck dev key st = (.ok (), st) ∧
      (ModelManager.load ck dev key st).2.buildCount = st.buildCount := by
  have heq : ModelManager.load ck dev key st = (.ok (), st) := by
    unfold ModelManager.load
    rw [hcat, if_neg (by simp), hck, if_neg (by simp), if_pos ⟨hkey, hm⟩]
  exact ⟨heq, by rw [heq]⟩

/-- C7 witness: a second load of the already-active default model is a
no-op with the build counter untouched. -/
theorem claim_load_idempotent_witness :
    ModelManager.load ckAll "cpu" DEFAULT_MODEL_KEY mstLoaded = (.ok (), mstLoaded) ∧
      (ModelManager.load ckAll "cpu" DEFAULT_MODEL_KEY mstLoaded).2.buildCount =
        mstLoaded.buildCount :=
  claim_load_idempotent ckAll "cpu" DEFAULT_MODEL_KEY mstLoaded rfl rfl rfl rfl

/-- C9: for an existing session, `predict` fails with `BadPrompt` if
and only if the request has neither points nor box, or has points with
a missing or different-length labels sequence; any other request passes
validation. -/
theorem claim_predict_bad_prompt_iff (st : SessionManagerState) (sid : String)
    (now : Nat) (req : PredictRequest) (run : PredictorOutcome) (s : _Session)
    (hget : (SessionManager._get sid now st).1 = .ok s) :
    (SessionManager.predict sid now req run st).1 = .error .badPrompt ↔
      badPromptSpec req := by
  rw [predict_fst sid now req run st s hget]
  constructor
  · intro h
    by_contra hv
    rw [predictCore_valid req run hv] at h
    exact runPredictor_ne_badPrompt run h
  · intro h
    unfold badPromptSpec at h
    unfold predictCore
    rcases h with ⟨hp, hb⟩ | ⟨hp, hmap⟩
    · rw [if_pos ⟨hp, hb⟩]
    · cases hps : req.points with
      | none => exact absurd hps hp
      | some ps =>
        rw [if_neg (fun hcon => Option.some_ne_none ps hcon.1)]
        cases hls : req.labels with
        | none => rfl
        | some ls =>
          rw [hps, hls] at hmap
          simp at hmap
          simp [hmap]

/-- C9 witness: on the live session `"S"`, the empty request (no
points, no box) is rejected as a bad prompt. -/
theorem claim_predict_bad_prompt_iff_witness :
    (SessionManager.predict "S" 6 { } PredictorOutcome.fault sstOne).1 =
        .error .badPrompt ↔ badPromptSpec { } :=
  claim_predict_bad_prompt_iff sstOne "S" 6 { } .fault
    { session_id := "S", last_used := 6 } rfl

/-- C3 counterexample: with `maxSessions = 2` and `ttlSeconds = 1000`,
creating A, B, C in order does NOT succeed three times — the third
create fails with `RegistryFull` and no eviction happens, so the
registry holds {A, B}, not {B, C}. -/
theorem claim_three_creates_cx :
    c3s3.1 = Except.error SvcError.registryFull ∧
      c3s3.2.sessions.map (fun s => s.session_id) = ["A", "B"] := by
  constructor
  · rfl
  · rfl

/-- C3 amended: with `maxSessions = 2` and `ttlSeconds = 1000`, the
creates of A and B succeed; the third create (C) fails with
`RegistryFull` — capacity is enforced by refusal in `create`, and the
LRU trim of `_gc` only fires when the map already exceeds the bound,
which a sequence of `create` calls can never produce — leaving exactly
{A, B} in the registry. -/
theorem claim_three_creates_amended :
    c3s1.1 = Except.ok "A" ∧ c3s2.1 = Except.ok "B" ∧
      c3s3.1 = Except.error SvcError.registryFull ∧
      c3s3.2.sessions.map (fun s => s.session_id) = ["A", "B"] ∧
      c3s3.2.sessions.length = 2 := by
  refine ⟨rfl, rfl, rfl, rfl, rfl⟩

/-- C4 counterexample: in a registry whose only session `"A"` was last
used at time 0 with `ttlSeconds = 10`, at `now = 100` the session is
expired (`_get` reports `NotFound`), yet `delete` still operates on it
and succeeds instead of treating it as absent: `delete` performs no
garbage collection. -/
theorem claim_expired_delete_cx :
    sstExpired.ttl_s < 100 - (0 : Nat) ∧
      (SessionManager._get "A" 100 sstExpired).1 = Except.error SvcError.notFound ∧
      (SessionManager.delete "A" sstExpired).1 = Except.ok () := by
  refine ⟨by decide, rfl, rfl⟩

/-- C4 amended: garbage collection runs at the start of `lookup`,
`count` and `create` (every session surviving `_gc` is unexpired, and a
lookup of an id all of whose entries are expired reports `NotFound`),
but `delete` performs no garbage collection: it succeeds on any present
session, expired or not, rather than treating expired entries as
absent. -/
theorem claim_expired_absent_amended :
    (∀ (now : Nat) (st : SessionManagerState) (s : _Session),
      s ∈ (SessionManager._gc now st).sessions → now - s.last_used ≤ st.ttl_s) ∧
    (∀ (st : SessionManagerState) (sid : String) (now : Nat),
      (∀ s ∈ st.sessions, s.session_id = sid → st.ttl_s < now - s.last_used) →
      (SessionManager._get sid now st).1 = Except.error SvcError.notFound) ∧
    (∀ (st : SessionManagerState) (sid : String),
      (∃ s ∈ st.sessions, s.session_id = sid) →
      (SessionManager.delete sid st).1 = Except.ok ()) := by
  refine ⟨?_, ?_, ?_⟩
  · intro now st s hs
    exact mem_gcSessions_not_expired now st.ttl_s st.max_sessions st.sessions s hs
  · intro st sid now h
    have hfind : (SessionManager._gc now st).sessions.find?
        (fun s => decide (s.session_id = sid)) = none := by
      apply List.find?_eq_none.mpr
      intro a ha
      simp only [decide_eq_true_eq]
      intro heq
      have h1 := mem_gcSessions_not_expired now st.ttl_s st.max_sessions st.sessions a ha
      have h2 := h a (mem_gcSessions_mem now st.ttl_s st.max_sessions st.sessions a ha) heq
      omega
    simp only [SessionManager._get]
    rw [hfind]
  · intro st sid h
    rcases h with ⟨s, hs, hid⟩
    have hany : st.sessions.any (fun s => decide (s.session_id = sid)) = true :=
      List.any_eq_true.mpr ⟨s, hs, by simp [hid]⟩
    simp [SessionManager.delete, hany]

/-- C4 amended witness: the unexpired session `"S"` survives `_gc` and
its age is within the TTL; the expired session `"A"` is invisible to
`_get` but still deletable. -/
theorem claim_expired_absent_amended_witness :
    (100 - (5 : Nat) ≤ 1800) ∧
      ((SessionManager._get "A" 100 sstExpired).1 = Except.error SvcError.notFound) ∧
      ((SessionManager.delete "A" sstExpired).1 = Except.ok ()) :=
  ⟨claim_expired_absent_amended.1 100 sstOne { session_id := "S", last_used := 5 } (by decide),
   claim_expired_absent_amended.2.1 sstExpired "A" 100 (by decide),
   claim_expired_absent_amended.2.2 sstExpired "A" (by decide)⟩

/-- C2 counterexample: `/model/select` with the unknown key `"bogus"`
does not return a 404-class error — the `ValueError` raised by
`ModelManager.load` is caught by no `except` clause of the handler, so
the call surfaces as an unhandled exception (a 500 response). The model
configuration and the session registry are left unchanged. -/
theorem claim_select_unknown_cx :
    select_model ckAll "cpu" (some "bogus") mstLoaded sstOne =
      (HttpResult.unhandled, mstLoaded, sstOne) := by
  rfl

/-- C2 amended: `/model/select` with a key outside the catalog leaves
the current model configuration and every session unchanged, but the
error surfaced to the client is an unhandled 500-class failure (only a
known key whose checkpoint is missing yields 404). -/
theorem claim_select_unknown_amended (ck : String → Bool) (dev key : String)
    (mst : ModelManagerState) (sst : SessionManagerState)
    (hk : key ≠ "") (hcat : catalogKeys.contains key = false) :
    select_model ck dev (some key) mst sst = (HttpResult.unhandled, mst, sst) := by
  have hload : ModelManager.load ck dev key mst = (.error .unknownModel, mst) := by
    unfold ModelManager.load
    rw [hcat, if_pos rfl]
  simp [select_model, hk, hload]

/-- C2 amended witness: the unknown key `"nope"` hits the unhandled
path with state untouched. -/
theorem claim_select_unknown_amended_witness :
    select_model ckAll "cpu" (some "nope") mstLoaded sstOne =
      (HttpResult.unhandled, mstLoaded, sstOne) :=
  claim_select_unknown_amended ckAll "cpu" "nope" mstLoaded sstOne (by decide) (by decide)

/-- C6 counterexample: an upload of the undecodable byte string `[7]`
to the live session `"S"` is not answered with a 400-class error — the
PIL decode exception is caught by no `except` clause of the handler and
surfaces as an unhandled 500. The session record keeps `width = 0` and
`height = 0`; only `last_used` was refreshed by the lookup. -/
theorem claim_set_image_decode_cx :
    handle_set_image "S" 6 [7] (fun _ => none) sstOne =
      (HttpResult.unhandled,
       { sessions := [{ session_id := "S", last_used := 6 }],
         ttl_s := 1800, max_sessions := 8 }) := by
  rfl

/-- C6 amended: an empty upload yields HTTP 400 with the state
untouched; for an existing session and bytes that do not decode, the
`DecodeError` escapes the handler as an unhandled 500-class failure
(not 400), the resulting state is exactly the post-lookup state, and
every session keeps its recorded width and height. -/
theorem claim_set_image_decode_amended :
    (∀ (sid : String) (now : Nat) (decodeImg : List Nat → Option (Nat × Nat))
        (st : SessionManagerState),
      handle_set_image sid now [] decodeImg st = (.httpError 400 "empty upload", st)) ∧
    (∀ (sid : String) (now : Nat) (data : List Nat)
        (decodeImg : List Nat → Option (Nat × Nat))
        (st : SessionManagerState) (s : _Session),
      (SessionManager._get sid now st).1 = .ok s →
      data ≠ [] →
      decodeImg data = none →
      (handle_set_image sid now data decodeImg st).1 = HttpResult.unhandled ∧
        (handle_set_image sid now data decodeImg st).2 =
          (SessionManager._get sid now st).2 ∧
        (∀ t ∈ (handle_set_image sid now data decodeImg st).2.sessions,
          ∃ t0 ∈ st.sessions,
            t.session_id = t0.session_id ∧ t.width = t0.width ∧ t.height = t0.height)) := by
  constructor
  · intro sid now decodeImg st
    rfl
  · intro sid now data decodeImg st s hget hdata hdec
    have hs := set_image_decode_failure sid now data decodeImg st s hget hdec
    have hh : handle_set_image sid now data decodeImg st =
        (HttpResult.unhandled, (SessionManager._get sid now st).2) := by
      unfold handle_set_image
      rw [if_neg hdata, hs]
    refine ⟨by rw [hh], by rw [hh], ?_⟩
    intro t ht
    rw [hh] at ht
    exact get_post_sessions sid now st t ht

/-- C6 amended witness: the empty upload gives 400; the undecodable
upload `[7]` gives the unhandled 500-class result. -/
theorem claim_set_image_decode_amended_witness :
    (handle_set_image "S" 6 [] (fun _ => none) sstOne =
      (HttpResult.httpError 400 "empty upload", sstOne)) ∧
    ((handle_set_image "S" 6 [7] (fun _ => none) sstOne).1 = HttpResult.unhandled) :=
  ⟨claim_set_image_decode_amended.1 "S" 6 (fun _ => none) sstOne,
   (claim_set_image_decode_amended.2 "S" 6 [7] (fun _ => none) sstOne
     { session_id := "S", last_used := 6 } rfl (by decide) rfl).1⟩

/-- C8: on an existing session with a valid prompt, when the predictor
returns a non-empty candidate list, `predict` succeeds with the mask at
index `np.argmax(scores)` — the highest score, ties broken by first
occurrence (every score is at most the reported one, and every earlier
score is strictly below it) — reports as area the count of strictly
positive pixels of that mask, and reports that mask score; when the
candidate list is absent or empty, `predict` fails with `NoMask`. -/
theorem claim_predict_best_mask (st : SessionManagerState) (sid : String)
    (now : Nat) (req : PredictRequest) (run : PredictorOutcome) (s : _Session)
    (hget : (SessionManager._get sid now st).1 = .ok s)
    (hv : ¬ badPromptSpec req) :
    (∀ (ms : List (List Int)) (scores : List Int),
      run = .out (some ms) scores → ms ≠ [] → scores.length = ms.length →
      ∃ r, (SessionManager.predict sid now req run st).1 = .ok r ∧
        ∃ hj : npArgmax scores < ms.length,
          r.mask = ms.get ⟨npArgmax scores, hj⟩ ∧
          r.score = scores.getD (npArgmax scores) 0 ∧
          r.mask_area = r.mask.countP (fun p => decide (p > 0)) ∧
          (∀ (i : Nat) (hi : i < scores.length), scores.get ⟨i, hi⟩ ≤ r.score) ∧
          (∀ (i : Nat) (hi : i < scores.length),
            i < npArgmax scores → scores.get ⟨i, hi⟩ < r.score)) ∧
    (∀ scores, run = .out none scores →
      (SessionManager.predict sid now req run st).1 = .error .noMask) ∧
    (∀ scores, run = .out (some []) scores →
      (SessionManager.predict sid now req run st).1 = .error .noMask) := by
  have hfst := predict_fst sid now req run st s hget
  have hvalid := predictCore_valid req run hv
  refine ⟨?_, ?_, ?_⟩
  · intro ms scores hrun hms hlen
    subst hrun
    rw [hfst, hvalid]
    have hms0 : ¬ (ms.length = 0) := by
      simpa using hms
    have hrp : runPredictor (.out (some ms) scores) =
        if ms.length = 0 then Except.error SvcError.noMask
        else Except.ok
          { score := scores.getD (npArgmax scores) 0,
            mask_area := (ms.getD (npArgmax scores) []).countP (fun p => decide (p > 0)),
            mask := ms.getD (npArgmax scores) [] } := rfl
    rw [hrp, if_neg hms0]
    have hsne : scores ≠ [] := by
      intro h0
      rw [h0] at hlen
      exact hms0 hlen.symm
    obtain ⟨hjlt, hle, hlt⟩ := npArgmax_spec scores hsne
    have hjm : npArgmax scores < ms.length := by omega
    refine ⟨_, rfl, hjm, ?_, rfl, rfl, ?_, ?_⟩
    · exact getD_eq_get ms (npArgmax scores) [] hjm
    · intro i hi
      exact hle i hi
    · intro i hi hilt
      exact hlt i hi hilt
  · intro scores hrun
    subst hrun
    rw [hfst, hvalid]
    rfl
  · intro scores hrun
    subst hrun
    rw [hfst, hvalid]
    rfl

/-- C8 witness: on session `"S"` with a one-point prompt and two
candidate masks scored 1 and 5, the selection facts hold as stated. -/
theorem claim_predict_best_mask_witness :
    (∀ (ms : List (List Int)) (scores : List Int),
      runC8 = .out (some ms) scores → ms ≠ [] → scores.length = ms.length →
      ∃ r, (SessionManager.predict "S" 6 reqC8 runC8 sstOne).1 = .ok r ∧
        ∃ hj : npArgmax scores < ms.length,
          r.mask = ms.get ⟨npArgmax scores, hj⟩ ∧
          r.score = scores.getD (npArgmax scores) 0 ∧
          r.mask_area = r.mask.countP (fun p => decide (p > 0)) ∧
          (∀ (i : Nat) (hi : i < scores.length), scores.get ⟨i, hi⟩ ≤ r.score) ∧
          (∀ (i : Nat) (hi : i < scores.length),
            i < npArgmax scores → scores.get ⟨i, hi⟩ < r.score)) ∧
    (∀ scores, runC8 = .out none scores →
      (SessionManager.predict "S" 6 reqC8 runC8 sstOne).1 = .error .noMask) ∧
    (∀ scores, runC8 = .out (some []) scores →
      (SessionManager.predict "S" 6 reqC8 runC8 sstOne).1 = .error .noMask) :=
  claim_predict_best_mask sstOne "S" 6 reqC8 runC8
    { session_id := "S", last_used := 6 } rfl (by decide)

/-- C10: a `POST /sessions` request carrying a `model_key` whose load
succeeds (key in the catalog, checkpoint present) clears every existing
session before creating the new one — in particular also when
`model_key` equals the currently loaded model, where the load itself is
a no-op — so the resulting registry holds exactly the one new session
and every other client session is destroyed. -/
theorem claim_create_session_clears (ck : String → Bool) (dev key sid : String)
    (now : Nat) (mst : ModelManagerState) (sst : SessionManagerState)
    (hk : key ≠ "") (hcat : catalogKeys.contains key = true)
    (hck : ck key = true) (hmax : 0 < sst.max_sessions) :
    (create_session ck dev (.ok ()) (some key) sid now mst sst).2.2.sessions =
      [{ session_id := sid, last_used := now }] ∧
    (create_session ck dev (.ok ()) (some key) sid now mst sst).1 = .ok sid := by
  have hcr : SessionManager.create sid now (.ok ()) (SessionManager.clear sst) =
      (.ok sid,
       { sessions := [{ session_id := sid, last_used := now }],
         ttl_s := sst.ttl_s, max_sessions := sst.max_sessions }) := by
    have hnotfull : ¬ (([] : List _Session).length ≥ sst.max_sessions) := by
      simpa using Nat.not_le.mpr hmax
    simp [SessionManager.create, SessionManager.clear, SessionManager._gc,
      SessionManager.gcSessions, SessionManager.dictInsert, Nat.not_le.mpr hmax]
  have hl : ∃ mst1, ModelManager.load ck dev key mst = (.ok (), mst1) := by
    unfold ModelManager.load
    rw [hcat, if_neg (by simp), hck, if_neg (by simp)]
    by_cases hid : mst.model_key = some key ∧ mst.model.isSome
    · rw [if_pos hid]
      exact ⟨mst, rfl⟩
    · rw [if_neg hid]
      exact ⟨_, rfl⟩
  obtain ⟨mst1, hl⟩ := hl
  have hcs : create_session ck dev (.ok ()) (some key) sid now mst sst =
      (.ok sid, mst1,
       { sessions := [{ session_id := sid, last_used := now }],
         ttl_s := sst.ttl_s, max_sessions := sst.max_sessions }) := by
    simp [create_session, hk, hl, hcr]
  rw [hcs]
  exact ⟨rfl, rfl⟩

/-- C10 witness: creating session `"N"` while naming the already-loaded
default model (the no-op load case) destroys the pre-existing session
`"S"`, leaving only the new session. -/
theorem claim_create_session_clears_witness :
    (create_session ckAll "cpu" (.ok ()) (some DEFAULT_MODEL_KEY) "N" 9
        mstLoaded sstOne).2.2.sessions = [{ session_id := "N", last_used := 9 }] ∧
    (create_session ckAll "cpu" (.ok ()) (some DEFAULT_MODEL_KEY) "N" 9
        mstLoaded sstOne).1 = .ok "N" :=
  claim_create_session_clears ckAll "cpu" DEFAULT_MODEL_KEY "N" 9 mstLoaded sstOne
    (by decide) rfl rfl (by decide)
